import Mathlib

/-!
# UCC-Bridge relay engine: shallow embedding and verification

This file embeds the core of the UCC-Bridge cross-chain relayer in Lean 4 and
proves (or refutes) the specification's claims about it.  The embedded
functions are direct translations of the JavaScript source:

* `src/backend/src/process-deposit.js` — `processDepositByTxHash`
* `src/backend/src/relayer.js` — `BridgeRelayer` (monitor loops, RPC rotation,
  error backoff)
* `state.js` (`StateManager`) — durable relayer state
* the HTTP control gateway (`index.js` / `main`) — request-body parsing and
  outcome-to-status mapping

Machine integers (uint256 token amounts, block numbers) are modelled as `Nat`;
the JS `BigInt` arithmetic used by the fee path is exact integer arithmetic, so
no wrap-around modelling is required.  Signed block-difference arithmetic
(`currentBlock - receipt.blockNumber`, which in JS can be negative) is
modelled with `Int`.  Network effects (receipt lookup, chain-head polls, the
mint submission) are supplied through an explicit environment record, and the
pipeline returns — besides its result and the post-state — a trace of the
externally visible actions it performed, in order, so that ordering claims
("marked before submitted", "no submission below the confirmation threshold")
can be stated precisely.
-/

/-- A decoded bridge event, as produced by `bscBridge.interface.parseLog`:
the named args of a `Deposit` (or `Burn`) log.  `depositId` is the uint256
identifier; the pipeline uses its decimal string form (`depositId.toString()`
in the source). -/
structure ParsedLog where
  name : String
  user : String
  amount : Nat
  depositId : Nat
  destinationAddress : String
deriving DecidableEq, Repr

/-- A transaction receipt as consumed by the pipeline: `status`,
`blockNumber`, and the raw logs (opaque here; a decode oracle maps a raw log
to `Option ParsedLog`, mirroring `parseLog` returning null on decode
failure). -/
structure Receipt where
  status : Nat
  blockNumber : Nat
  logs : List Nat
deriving DecidableEq, Repr

/-- One entry of `StateManager.state.transactionHashes`
(`addDepositTxHashes` / `addBurnTxHashes` store this shape). -/
structure TxRecord where
  type : String
  sourceTxHash : String
  destTxHash : Option String
  sourceChain : String
  destChain : String
  timestamp : Nat
deriving DecidableEq, Repr

/-- The persisted relayer state (`StateManager.state`).  `transactionHashes`
is a JS object keyed by event id; it is modelled by its lookup function. -/
structure RelayerState where
  lastBscBlock : Option Nat
  lastUcBlock : Option Nat
  processedDeposits : List String
  processedBurns : List String
  transactionHashes : String → Option TxRecord
  lastSaved : Option String
  startedAt : String

/-- The fresh empty state created by `StateManager.loadState` when no durable
copy exists (`startedAt` is the wall-clock timestamp at creation, passed in
explicitly). -/
def freshState (now : String) : RelayerState :=
  { lastBscBlock := none
    lastUcBlock := none
    processedDeposits := []
    processedBurns := []
    transactionHashes := fun _ => none
    lastSaved := none
    startedAt := now }

/-- How the durable state file presented itself at startup: absent, present
but unreadable (read threw), or present with contents `s`. -/
inductive FileRead where
  | absent
  | readFails
  | content (s : String)

/-- `StateManager.loadState`: the whole read-and-parse is wrapped in a
try/catch whose catch falls through to the fresh state.  `parse` is the
deserialisation oracle — `none` models `JSON.parse` (or the subsequent field
accesses inside the `try`) throwing. -/
def loadState (parse : String → Option RelayerState) (now : String) :
    FileRead → RelayerState
  | .absent => freshState now
  | .readFails => freshState now
  | .content s =>
    match parse s with
    | some st => st
    | none => freshState now

/-- `StateManager.addProcessedDeposit`: push if absent, then trim to the last
10000 entries (`slice(-10000)`) when the list exceeds 10000. -/
def addProcessedDeposit (st : RelayerState) (depositId : String) : RelayerState :=
  if depositId ∈ st.processedDeposits then st
  else
    let l := st.processedDeposits ++ [depositId]
    let l := if l.length > 10000 then l.drop (l.length - 10000) else l
    { st with processedDeposits := l }

/-- `StateManager.addProcessedBurn`: identical policy on the burns list. -/
def addProcessedBurn (st : RelayerState) (burnId : String) : RelayerState :=
  if burnId ∈ st.processedBurns then st
  else
    let l := st.processedBurns ++ [burnId]
    let l := if l.length > 10000 then l.drop (l.length - 10000) else l
    { st with processedBurns := l }

/-- `StateManager.addDepositTxHashes`: store (overwrite) the record at key
`depositId`; no other key is touched. -/
def addDepositTxHashes (st : RelayerState) (depositId bscTxHash : String)
    (ucTxHash : Option String) (now : Nat) : RelayerState :=
  { st with transactionHashes := fun k =>
      if k = depositId then
        some { type := "deposit", sourceTxHash := bscTxHash, destTxHash := ucTxHash,
               sourceChain := "BSC", destChain := "UC", timestamp := now }
      else st.transactionHashes k }

/-- `StateManager.addBurnTxHashes`. -/
def addBurnTxHashes (st : RelayerState) (burnId ucTxHash : String)
    (bscTxHash : Option String) (now : Nat) : RelayerState :=
  { st with transactionHashes := fun k =>
      if k = burnId then
        some { type := "burn", sourceTxHash := ucTxHash, destTxHash := bscTxHash,
               sourceChain := "UC", destChain := "BSC", timestamp := now }
      else st.transactionHashes k }

/-- `StateManager.setLastBscBlock`. -/
def setLastBscBlock (st : RelayerState) (block : Nat) : RelayerState :=
  { st with lastBscBlock := some block }

/-- The fee computation of the pipeline (`process-deposit.js` step 6,
`relayer.js` step 4): `feeAmount = originalAmount / 100n` — BigInt floor
division. -/
def feeAmount (originalAmount : Nat) : Nat := originalAmount / 100

/-- `netAmount = originalAmount - feeAmount`. -/
def netAmount (originalAmount : Nat) : Nat := originalAmount - feeAmount originalAmount

/-- C5: the fee computation uses unsigned integer floor division at a fixed
1% rate: for every gross amount in `[0, 2^256 - 1]`,
`netAmount gross + gross / 100 = gross`, `netAmount 0 = 0`, and
`netAmount 99 = 99` (the fee rounds to zero below 100 smallest units). -/
theorem netAmount_fee_exact (gross : Nat) (_h : gross ≤ 2 ^ 256 - 1) :
    netAmount gross + gross / 100 = gross ∧ netAmount 0 = 0 ∧ netAmount 99 = 99 := by
  refine ⟨?_, rfl, rfl⟩
  have hle : gross / 100 ≤ gross := Nat.div_le_self _ _
  unfold netAmount feeAmount
  omega

/-- Witness for C5 at the spec's happy-path scenario amount
(100 USDT in 6-decimal units). -/
theorem netAmount_fee_exact_witness :
    100000000 ≤ 2 ^ 256 - 1 ∧
      (netAmount 100000000 + 100000000 / 100 = 100000000 ∧
        netAmount 0 = 0 ∧ netAmount 99 = 99) :=
  ⟨by norm_num, netAmount_fee_exact 100000000 (by norm_num)⟩

/-- The externally visible actions of one `processDepositByTxHash` run, in
execution order: chain-head polls, the confirmation sleep, the destination
`mint` submission, marking the id processed, and recording the tx-hash
pair. -/
inductive RelayAction where
  | pollHead (block : Nat)
  | sleep (ms : Int)
  | submitMint (recipient : String) (amount : Nat) (depositId : String)
  | markProcessed (depositId : String)
  | putTxHashes (depositId bscTxHash ucTxHash : String)
deriving DecidableEq, Repr

/-- The three outcome shapes of `processDepositByTxHash`: the success object,
the `\x7bsuccess:false, message:'Deposit already processed'\x7d` short-circuit, and
the catch-branch `\x7bsuccess:false, error\x7d` object. -/
inductive DepositResult where
  | success (depositId bscTxHash ucTxHash : String)
      (amount originalAmount fee : Nat) (recipient : String)
  | alreadyProcessed
  | failure (error : String)
deriving DecidableEq, Repr

/-- The `success` field of the returned object. -/
def DepositResult.isSuccess : DepositResult → Bool
  | .success .. => true
  | _ => false

/-- The gateway's outcome-to-status mapping for `/api/process-deposit` and
`/api/process-withdrawal`: `result.success ? 200 : 400`. -/
def httpStatusFor (r : DepositResult) : Nat :=
  if r.isSuccess then 200 else 400

/-- The chain environment one `processDepositByTxHash` run observes: the
receipt the source-chain provider returns for the given hash, the log-decode
oracle (`parseLog` returning null on failure), the chain head at the first
and at the post-sleep poll, and the destination mint outcome (`none` models
the mint call or its receipt wait throwing; `some h` a confirmed destination
tx with hash `h`). -/
structure ChainEnv where
  receipt : Option Receipt
  parseLog : Nat → Option ParsedLog
  headFirstPoll : Nat
  headSecondPoll : Nat
  mintResult : Option String
  nowMs : Nat

/-- The matcher of `find(e => e && e.name === 'Deposit')`. -/
def eventNameMatches (expected : String) : Option ParsedLog → Bool
  | some e => e.name == expected
  | none => false

/-- `receipt.logs.map(parseLog-or-null).find(e => e && e.name === expected)`:
the first decoded log whose name matches. -/
def findFirstEvent (expected : String) (decoded : List (Option ParsedLog)) :
    Option ParsedLog :=
  match decoded.find? (eventNameMatches expected) with
  | some (some e) => some e
  | _ => none

/-- `processDepositByTxHash` (`process-deposit.js`): fetch the receipt, check
its status, decode the `Deposit` event from its logs, short-circuit if the
depositId is already processed, wait once for confirmations when below 6,
compute the 1% fee, mint on the destination chain, and only then mark
processed and record the tx hashes.  Thrown errors are modelled by the
corresponding `.failure` returns of the catch branch; the run returns its
result, the post-state, and the ordered action trace. -/
def processDepositByTxHash (env : ChainEnv) (st : RelayerState) (bscTxHash : String) :
    DepositResult × RelayerState × List RelayAction :=
  match env.receipt with
  | none => (.failure "Transaction receipt not found", st, [])
  | some receipt =>
    if receipt.status ≠ 1 then
      (.failure "Transaction failed on BSC", st, [])
    else
      match findFirstEvent "Deposit" (receipt.logs.map env.parseLog) with
      | none => (.failure "Deposit event not found in transaction", st, [])
      | some ev =>
        let depositIdStr := toString ev.depositId
        if depositIdStr ∈ st.processedDeposits then
          (.alreadyProcessed, st, [])
        else
          let requiredConfirmations : Int := 6
          let confirmations : Int :=
            (env.headFirstPoll : Int) - (receipt.blockNumber : Int)
          let confActions : List RelayAction :=
            if confirmations < requiredConfirmations then
              [RelayAction.pollHead env.headFirstPoll,
               RelayAction.sleep ((requiredConfirmations - confirmations) * 3000),
               RelayAction.pollHead env.headSecondPoll]
            else
              [RelayAction.pollHead env.headFirstPoll]
          let originalAmount := ev.amount
          let fee := originalAmount / 100
          let net := originalAmount - fee
          match env.mintResult with
          | none => (.failure "mint failed", st, confActions)
          | some ucTxHash =>
            let st1 := addProcessedDeposit st depositIdStr
            let st2 := addDepositTxHashes st1 depositIdStr bscTxHash (some ucTxHash) env.nowMs
            (.success depositIdStr bscTxHash ucTxHash net originalAmount fee
                ev.destinationAddress,
             st2,
             confActions ++
               [RelayAction.submitMint ev.destinationAddress net depositIdStr,
                RelayAction.markProcessed depositIdStr,
                RelayAction.putTxHashes depositIdStr bscTxHash ucTxHash])

/-- Scans a trace carrying the set of ids marked so far (seeded with the ids
processed before the run); `true` iff every destination submission is for an
id already marked processed at that point — the ordering C1 claims. -/
def checkMarkedBeforeSubmit (marked : List String) : List RelayAction → Bool
  | [] => true
  | RelayAction.markProcessed id :: rest => checkMarkedBeforeSubmit (id :: marked) rest
  | RelayAction.submitMint _ _ id :: rest =>
      marked.contains id && checkMarkedBeforeSubmit marked rest
  | _ :: rest => checkMarkedBeforeSubmit marked rest

/-- Scans a trace carrying the ids submitted so far; `true` iff every
`markProcessed` is preceded by a destination submission for that id — the
ordering the code actually implements. -/
def checkSubmitBeforeMark (submitted : List String) : List RelayAction → Bool
  | [] => true
  | RelayAction.submitMint _ _ id :: rest => checkSubmitBeforeMark (id :: submitted) rest
  | RelayAction.markProcessed id :: rest =>
      submitted.contains id && checkSubmitBeforeMark submitted rest
  | _ :: rest => checkSubmitBeforeMark submitted rest

/-- A concrete decoded `Deposit` log used by the concrete runs below. -/
def sampleLog : ParsedLog :=
  { name := "Deposit", user := "0xuser", amount := 100000000,
    depositId := 7, destinationAddress := "0xdest" }

/-- A concrete environment: a successful receipt in block 100 holding one
decodable `Deposit` log, a chain head that stays at block 100 across both
polls (zero confirmations), and a mint that confirms with hash `0xmint`. -/
def sampleEnv : ChainEnv :=
  { receipt := some { status := 1, blockNumber := 100, logs := [0] }
    parseLog := fun _ => some sampleLog
    headFirstPoll := 100
    headSecondPoll := 100
    mintResult := some "0xmint"
    nowMs := 1700000000000 }

/-- C1 counterexample: a concrete successful run (fresh state, confirmed
receipt, decodable Deposit log, confirmed mint) whose trace contains both the
destination submission and the mark-processed action, yet scanning the trace
shows the submission is NOT preceded by marking the id processed — the mint
is submitted first, the id is marked processed only afterwards. -/
theorem mark_processed_after_submit_counterexample :
    (RelayAction.submitMint "0xdest" 99000000 "7")
        ∈ (processDepositByTxHash sampleEnv (freshState "t0") "0xsrc").2.2
    ∧ (RelayAction.markProcessed "7")
        ∈ (processDepositByTxHash sampleEnv (freshState "t0") "0xsrc").2.2
    ∧ checkMarkedBeforeSubmit (freshState "t0").processedDeposits
        (processDepositByTxHash sampleEnv (freshState "t0") "0xsrc").2.2 = false := by
  decide

/-- C1 (amended): in every `processDepositByTxHash` run the ordering is the
reverse of the claim — the eventId is added to the processed set only AFTER
the destination mint is submitted and confirmed (every mark-processed action
in the trace is preceded by a submission for that id), and a destination
submission occurs only for an eventId that is not yet in the processed
set at the start of the run. -/
theorem submit_precedes_mark (env : ChainEnv) (st : RelayerState) (bscTxHash : String) :
    checkSubmitBeforeMark [] (processDepositByTxHash env st bscTxHash).2.2 = true
    ∧ ∀ r a id, RelayAction.submitMint r a id ∈ (processDepositByTxHash env st bscTxHash).2.2 →
        id ∉ st.processedDeposits := by
  unfold processDepositByTxHash
  rcases env.receipt with _ | receipt
  · simp [checkSubmitBeforeMark]
  · dsimp only
    split
    · simp [checkSubmitBeforeMark]
    · rcases hfind : findFirstEvent "Deposit" (receipt.logs.map env.parseLog) with _ | ev
      · simp [checkSubmitBeforeMark]
      · dsimp only
        split
        · simp [checkSubmitBeforeMark]
        · rename_i hnotmem
          rcases env.mintResult with _ | ucTxHash
          · dsimp only
            split <;> simp [checkSubmitBeforeMark]
          · dsimp only
            split <;>
              simp_all [checkSubmitBeforeMark, List.contains_cons]

/-- Witness for C1 (amended) at the concrete successful run. -/
theorem submit_precedes_mark_witness :
    checkSubmitBeforeMark [] (processDepositByTxHash sampleEnv (freshState "t0") "0xsrc").2.2 = true
    ∧ "7" ∉ (freshState "t0").processedDeposits :=
  ⟨(submit_precedes_mark sampleEnv (freshState "t0") "0xsrc").1,
   (submit_precedes_mark sampleEnv (freshState "t0") "0xsrc").2 "0xdest" 99000000 "7" (by decide)⟩

/-- C2 counterexample: with the event mined in block 100 and a chain head
that stays at block 100 across both polls (so `currentBlock - eventBlock = 0
< 6` even after the single re-poll), the destination mint is nonetheless
submitted: the confirmation wait does not re-check the threshold. -/
theorem confirmation_gate_counterexample :
    sampleEnv.receipt = some { status := 1, blockNumber := 100, logs := [0] }
    ∧ (RelayAction.submitMint "0xdest" 99000000 "7")
        ∈ (processDepositByTxHash sampleEnv (freshState "t0") "0xsrc").2.2
    ∧ (sampleEnv.headFirstPoll : Int) - (100 : Int) < 6
    ∧ (sampleEnv.headSecondPoll : Int) - (100 : Int) < 6 := by
  decide

/-- C2 (amended): when the first-poll confirmation count is below 6 and a
destination submission happens, the run performed exactly one sleep of
`(6 - confirmations) * 3000` ms followed by exactly one head re-poll, and
then proceeded directly to the submission — regardless of the confirmation
count the re-poll observed (the wait is a single `if`, not a loop). -/
theorem confirmation_wait_single_sleep (env : ChainEnv) (st : RelayerState)
    (bscTxHash : String) (receipt : Receipt) (r : String) (a : Nat) (id : String)
    (hrec : env.receipt = some receipt)
    (hconf : (env.headFirstPoll : Int) - (receipt.blockNumber : Int) < 6)
    (hmem : RelayAction.submitMint r a id ∈ (processDepositByTxHash env st bscTxHash).2.2) :
    ∃ ucTxHash, env.mintResult = some ucTxHash ∧
      (processDepositByTxHash env st bscTxHash).2.2 =
        [RelayAction.pollHead env.headFirstPoll,
         RelayAction.sleep ((6 - ((env.headFirstPoll : Int) - (receipt.blockNumber : Int))) * 3000),
         RelayAction.pollHead env.headSecondPoll,
         RelayAction.submitMint r a id,
         RelayAction.markProcessed id,
         RelayAction.putTxHashes id bscTxHash ucTxHash] := by
  obtain ⟨rcpt, parse, h1, h2, mint, now⟩ := env
  obtain rfl : rcpt = some receipt := hrec
  dsimp only at hconf ⊢
  unfold processDepositByTxHash at hmem ⊢
  dsimp only at hmem ⊢
  by_cases hst : receipt.status ≠ 1
  · rw [if_pos hst] at hmem
    simp at hmem
  · rw [if_neg hst] at hmem ⊢
    rcases hfind : findFirstEvent "Deposit" (receipt.logs.map parse) with _ | ev <;>
      rw [hfind] at hmem
    · simp at hmem
    · dsimp only at hmem ⊢
      by_cases hproc : toString ev.depositId ∈ st.processedDeposits
      · rw [if_pos hproc] at hmem
        simp at hmem
      · rw [if_neg hproc] at hmem ⊢
        rcases mint with _ | ucTxHash
        · dsimp only at hmem
          split at hmem <;> simp at hmem
        · dsimp only at hmem ⊢
          rw [if_pos hconf] at hmem ⊢
          refine ⟨ucTxHash, rfl, ?_⟩
          simp only [List.cons_append, List.nil_append, List.mem_cons,
            List.not_mem_nil, or_false] at hmem
          rcases hmem with h|h|h|h|h|h <;> simp_all

/-- Witness for C2 (amended): the concrete run sleeps `(6-0)*3000 = 18000`
ms, re-polls once, and submits. -/
theorem confirmation_wait_single_sleep_witness :
    ∃ ucTxHash, sampleEnv.mintResult = some ucTxHash ∧
      (processDepositByTxHash sampleEnv (freshState "t0") "0xsrc").2.2 =
        [RelayAction.pollHead sampleEnv.headFirstPoll,
         RelayAction.sleep ((6 - ((sampleEnv.headFirstPoll : Int) - ((100 : Nat) : Int))) * 3000),
         RelayAction.pollHead sampleEnv.headSecondPoll,
         RelayAction.submitMint "0xdest" 99000000 "7",
         RelayAction.markProcessed "7",
         RelayAction.putTxHashes "7" "0xsrc" ucTxHash] :=
  confirmation_wait_single_sleep sampleEnv (freshState "t0") "0xsrc"
    { status := 1, blockNumber := 100, logs := [0] } "0xdest" 99000000 "7"
    rfl (by decide) (by decide)

/-- C3 counterexample: after a first successful run, the second invocation
with the same hash returns the already-processed outcome with
`success:false`, which the gateway maps to HTTP 400 — an error-class
response, not the non-error success the claim states (the no-submission and
no-mutation parts do hold: the second run's trace is empty). -/
theorem already_processed_not_success_counterexample :
    (processDepositByTxHash sampleEnv (freshState "t0") "0xsrc").1.isSuccess = true
    ∧ (processDepositByTxHash sampleEnv
        ((processDepositByTxHash sampleEnv (freshState "t0") "0xsrc").2.1) "0xsrc").1 =
        .alreadyProcessed
    ∧ httpStatusFor (processDepositByTxHash sampleEnv
        ((processDepositByTxHash sampleEnv (freshState "t0") "0xsrc").2.1) "0xsrc").1 = 400
    ∧ (processDepositByTxHash sampleEnv
        ((processDepositByTxHash sampleEnv (freshState "t0") "0xsrc").2.1) "0xsrc").2.2 = [] := by
  decide

/-- C3 (amended): when the decoded eventId is already in the processed set,
the run short-circuits with the already-processed outcome, leaves the state
untouched, performs no action at all (in particular no destination
submission) — but the outcome carries `success:false` and the gateway maps
it to HTTP 400, not to a non-error success. -/
theorem already_processed_noop (env : ChainEnv) (st : RelayerState) (bscTxHash : String)
    (receipt : Receipt) (ev : ParsedLog)
    (hrec : env.receipt = some receipt) (hst : receipt.status = 1)
    (hev : findFirstEvent "Deposit" (receipt.logs.map env.parseLog) = some ev)
    (hproc : toString ev.depositId ∈ st.processedDeposits) :
    processDepositByTxHash env st bscTxHash = (.alreadyProcessed, st, [])
    ∧ DepositResult.isSuccess .alreadyProcessed = false
    ∧ httpStatusFor .alreadyProcessed = 400 := by
  refine ⟨?_, rfl, rfl⟩
  unfold processDepositByTxHash
  rw [hrec]
  dsimp only
  rw [if_neg (by simp [hst]), hev]
  dsimp only
  rw [if_pos hproc]

/-- A state in which depositId 7 is already recorded as processed. -/
def processedState : RelayerState := { freshState "t0" with processedDeposits := ["7"] }

/-- Witness for C3 (amended) at a concrete already-processed state. -/
theorem already_processed_noop_witness :
    processDepositByTxHash sampleEnv processedState "0xsrc" = (.alreadyProcessed, processedState, [])
    ∧ DepositResult.isSuccess .alreadyProcessed = false
    ∧ httpStatusFor .alreadyProcessed = 400 :=
  already_processed_noop sampleEnv processedState "0xsrc"
    { status := 1, blockNumber := 100, logs := [0] } sampleLog rfl rfl (by decide) (by decide)

/-- A state whose processed-deposits list is already at the 10000-entry cap,
with distinct ids at the two ends so a removal is observable. -/
def bigProcessedState : RelayerState :=
  { freshState "t0" with
      processedDeposits := "b" :: (List.replicate 9998 "a" ++ ["d"]) }

/-- C4 counterexample: with the processed list at its 10000-entry cap,
`addProcessedDeposit` of a fresh id evicts the OLDEST processed eventId
("b" is a member before the call and no longer a member after) — the
processed set is not append-only for the engine's lifetime. -/
theorem processed_id_removed_counterexample :
    bigProcessedState.processedDeposits.length = 10000
    ∧ "b" ∈ bigProcessedState.processedDeposits
    ∧ "b" ∉ (addProcessedDeposit bigProcessedState "c").processedDeposits := by
  refine ⟨?_, ?_, ?_⟩
  · simp only [bigProcessedState, freshState, List.length_cons, List.length_append,
      List.length_replicate, List.length_nil]
  · dsimp only [bigProcessedState, freshState]
    exact List.mem_cons_self _ _
  · have hnot : ("c" : String) ∉ bigProcessedState.processedDeposits := by
      simp only [bigProcessedState, freshState, List.mem_cons, List.mem_append,
        List.mem_replicate, List.mem_singleton, List.not_mem_nil, or_false]
      push_neg
      exact ⟨by decide, fun h => by decide, by decide⟩
    unfold addProcessedDeposit
    rw [if_neg hnot]
    dsimp only
    have hlen : (bigProcessedState.processedDeposits ++ ["c"]).length = 10001 := by
      simp only [bigProcessedState, freshState, List.length_cons, List.length_append,
        List.length_replicate, List.length_nil]
    rw [hlen]
    norm_num
    rw [show bigProcessedState.processedDeposits ++ ["c"] =
        "b" :: ((List.replicate 9998 "a" ++ ["d"]) ++ ["c"]) from by
      simp only [bigProcessedState, freshState, List.cons_append]]
    rw [List.tail_cons]
    simp only [List.mem_append, List.mem_replicate, List.mem_singleton, not_or]
    exact ⟨⟨fun h => absurd h.2 (by decide), by decide⟩, by decide⟩

/-- C4 (amended): the trimming policy is the inverse of the claim.  The
processed-id lists keep every existing member only while they stay within
the 10000-entry cap (beyond it the oldest entries are evicted, per the
counterexample), whereas the `transactionHashes` records map never loses a
key under any StateManager mutation. -/
theorem processed_trim_records_kept :
    (∀ st id x, x ∈ st.processedDeposits → st.processedDeposits.length < 10000 →
        x ∈ (addProcessedDeposit st id).processedDeposits)
    ∧ (∀ st id x, x ∈ st.processedBurns → st.processedBurns.length < 10000 →
        x ∈ (addProcessedBurn st id).processedBurns)
    ∧ (∀ st id src now k v, ∀ dst : Option String, st.transactionHashes k = some v →
        ∃ w, (addDepositTxHashes st id src dst now).transactionHashes k = some w)
    ∧ (∀ st id src now k v, ∀ dst : Option String, st.transactionHashes k = some v →
        ∃ w, (addBurnTxHashes st id src dst now).transactionHashes k = some w) := by
  refine ⟨?_, ?_, ?_, ?_⟩
  · intro st id x hx hlen
    unfold addProcessedDeposit
    by_cases hid : id ∈ st.processedDeposits
    · rw [if_pos hid]
      exact hx
    · rw [if_neg hid]
      dsimp only
      rw [if_neg (by simp only [List.length_append, List.length_cons, List.length_nil]; omega)]
      exact List.mem_append_left _ hx
  · intro st id x hx hlen
    unfold addProcessedBurn
    by_cases hid : id ∈ st.processedBurns
    · rw [if_pos hid]
      exact hx
    · rw [if_neg hid]
      dsimp only
      rw [if_neg (by simp only [List.length_append, List.length_cons, List.length_nil]; omega)]
      exact List.mem_append_left _ hx
  · intro st id src now k v dst hk
    unfold addDepositTxHashes
    dsimp only
    by_cases hkid : k = id
    · exact ⟨_, by rw [if_pos hkid]⟩
    · exact ⟨v, by rw [if_neg hkid]; exact hk⟩
  · intro st id src now k v dst hk
    unfold addBurnTxHashes
    dsimp only
    by_cases hkid : k = id
    · exact ⟨_, by rw [if_pos hkid]⟩
    · exact ⟨v, by rw [if_neg hkid]; exact hk⟩

/-- A state with one processed burn id. -/
def burnState : RelayerState := { freshState "t0" with processedBurns := ["9"] }

/-- A state holding one tx-hash record (at key "7"). -/
def recordedState : RelayerState :=
  addDepositTxHashes processedState "7" "0xsrc" (some "0xmint") 3

/-- Witness for C4 (amended) at concrete below-cap states. -/
theorem processed_trim_records_kept_witness :
    "7" ∈ (addProcessedDeposit processedState "8").processedDeposits
    ∧ "9" ∈ (addProcessedBurn burnState "10").processedBurns
    ∧ (∃ w, (addDepositTxHashes recordedState "11" "0xs" (some "0xd") 5).transactionHashes "7"
        = some w)
    ∧ (∃ w, (addBurnTxHashes recordedState "11" "0xs" (some "0xd") 5).transactionHashes "7"
        = some w) :=
  ⟨processed_trim_records_kept.1 processedState "8" "7" (by decide) (by decide),
   processed_trim_records_kept.2.1 burnState "10" "9" (by decide) (by decide),
   processed_trim_records_kept.2.2.1 recordedState "11" "0xs" 5 "7"
     { type := "deposit", sourceTxHash := "0xsrc", destTxHash := some "0xmint",
       sourceChain := "BSC", destChain := "UC", timestamp := 3 } (some "0xd") rfl,
   processed_trim_records_kept.2.2.2 recordedState "11" "0xs" 5 "7"
     { type := "deposit", sourceTxHash := "0xsrc", destTxHash := some "0xmint",
       sourceChain := "BSC", destChain := "UC", timestamp := 3 } (some "0xd") rfl⟩

/-- C6: event verification from a transaction hash follows exactly the
claimed algorithm: absent receipt fails, non-success status fails, the logs
are decoded one by one with failed decodes discarded and the FIRST decoded
log named `Deposit` is selected (conjunct 4: the selected event is the first
match of `find?`), no match fails, and the returned event is derived solely
from the receipt's logs (conjunct 5: it is a member of the decoded logs). -/
theorem event_verification_algorithm :
    (∀ env st tx, env.receipt = none →
        processDepositByTxHash env st tx = (.failure "Transaction receipt not found", st, []))
    ∧ (∀ env st tx receipt, env.receipt = some receipt → receipt.status ≠ 1 →
        processDepositByTxHash env st tx = (.failure "Transaction failed on BSC", st, []))
    ∧ (∀ env st tx receipt, env.receipt = some receipt → receipt.status = 1 →
        findFirstEvent "Deposit" (receipt.logs.map env.parseLog) = none →
        processDepositByTxHash env st tx =
          (.failure "Deposit event not found in transaction", st, []))
    ∧ (∀ expected decoded ev, findFirstEvent expected decoded = some ev →
        ev.name = expected ∧ some ev ∈ decoded
          ∧ decoded.find? (eventNameMatches expected) = some (some ev))
    ∧ (∀ expected (parse : Nat → Option ParsedLog) (logs : List Nat) ev,
        findFirstEvent expected (logs.map parse) = some ev → ev ∈ logs.filterMap parse) := by
  refine ⟨?_, ?_, ?_, ?_, ?_⟩
  · intro env st tx h
    unfold processDepositByTxHash
    rw [h]
  · intro env st tx receipt hrec hst
    unfold processDepositByTxHash
    rw [hrec]
    dsimp only
    rw [if_pos hst]
  · intro env st tx receipt hrec hst hfind
    unfold processDepositByTxHash
    rw [hrec]
    dsimp only
    rw [if_neg (by simp [hst]), hfind]
  · intro expected decoded ev h
    unfold findFirstEvent at h
    rcases hf : decoded.find? (eventNameMatches expected) with _ | (_ | e)
    · rw [hf] at h
      exact absurd h (by simp)
    · rw [hf] at h
      exact absurd h (by simp)
    · rw [hf] at h
      simp only [Option.some.injEq] at h
      subst h
      have hp := List.find?_some hf
      have hm := List.mem_of_find?_eq_some hf
      refine ⟨?_, hm, rfl⟩
      simpa [eventNameMatches] using hp
  · intro expected parse logs ev h
    unfold findFirstEvent at h
    rcases hf : (logs.map parse).find? (eventNameMatches expected) with _ | (_ | e)
    · rw [hf] at h
      exact absurd h (by simp)
    · rw [hf] at h
      exact absurd h (by simp)
    · rw [hf] at h
      simp only [Option.some.injEq] at h
      subst h
      have hm := List.mem_of_find?_eq_some hf
      rcases List.mem_map.mp hm with ⟨l, hl, hpl⟩
      exact List.mem_filterMap.mpr ⟨l, hl, hpl⟩

/-- Environment in which the receipt lookup returns nothing. -/
def noReceiptEnv : ChainEnv := { sampleEnv with receipt := none }

/-- Environment whose transaction reverted (receipt status 0). -/
def revertedEnv : ChainEnv :=
  { sampleEnv with receipt := some { status := 0, blockNumber := 100, logs := [0] } }

/-- Environment in which no log decodes against the bridge ABI. -/
def noEventEnv : ChainEnv := { sampleEnv with parseLog := fun _ => none }

/-- Witness for C6 at concrete environments exercising every failure arm
and the selection arm. -/
theorem event_verification_algorithm_witness :
    processDepositByTxHash noReceiptEnv (freshState "t0") "0x1" =
      (.failure "Transaction receipt not found", freshState "t0", [])
    ∧ processDepositByTxHash revertedEnv (freshState "t0") "0x1" =
      (.failure "Transaction failed on BSC", freshState "t0", [])
    ∧ processDepositByTxHash noEventEnv (freshState "t0") "0x1" =
      (.failure "Deposit event not found in transaction", freshState "t0", [])
    ∧ (sampleLog.name = "Deposit" ∧ some sampleLog ∈ [some sampleLog]
        ∧ [some sampleLog].find? (eventNameMatches "Deposit") = some (some sampleLog))
    ∧ sampleLog ∈ [0].filterMap sampleEnv.parseLog :=
  ⟨event_verification_algorithm.1 noReceiptEnv _ "0x1" rfl,
   event_verification_algorithm.2.1 revertedEnv _ "0x1"
     { status := 0, blockNumber := 100, logs := [0] } rfl (by decide),
   event_verification_algorithm.2.2.1 noEventEnv _ "0x1"
     { status := 1, blockNumber := 100, logs := [0] } rfl rfl (by decide),
   event_verification_algorithm.2.2.2.1 "Deposit" [some sampleLog] sampleLog (by decide),
   event_verification_algorithm.2.2.2.2 "Deposit" sampleEnv.parseLog [0] sampleLog (by decide)⟩

/-- JS `String.prototype.trim`: strip whitespace from both ends (the
gateway's `body.trim()`), on the character sequence. -/
def trimChars (cs : List Char) : List Char :=
  ((cs.dropWhile Char.isWhitespace).reverse.dropWhile Char.isWhitespace).reverse

/-- Prefix test used by the substring search below. -/
def startsWith : List Char → List Char → Bool
  | _, [] => true
  | [], _ :: _ => false
  | c :: cs, p :: ps => c == p && startsWith cs ps

/-- JS `String.prototype.includes(pat)`: some position of the text starts
with `pat`. -/
def containsSub (pat : List Char) : List Char → Bool
  | [] => startsWith [] pat
  | c :: rest => startsWith (c :: rest) pat || containsSub pat rest

/-- JS `String.prototype.split(sep)` for a single-character separator
(the gateway splits on a colon). -/
def splitOnChar (sep : Char) : List Char → List (List Char)
  | [] => [[]]
  | c :: rest =>
    if c == sep then [] :: splitOnChar sep rest
    else
      match splitOnChar sep rest with
      | [] => [[c]]
      | g :: gs => (c :: g) :: gs

/-- The gateway's force-remove-quotes step: if the first and last characters
are both a single quote (char 39) or both a double quote, `slice(1, -1)`. -/
def stripOuterQuotesChars (cs : List Char) : List Char :=
  let f := cs.headD (Char.ofNat 0)
  let l := cs.getLastD (Char.ofNat 0)
  if (f = Char.ofNat 39 ∧ l = Char.ofNat 39) ∨ (f = '"' ∧ l = '"') then
    (cs.drop 1).dropLast
  else cs

/-- `cleanBody`: the request body trimmed and with matching outer quotes
stripped — the string the gateway hands to `JSON.parse` and to the manual
fallback. -/
def cleanedBody (body : String) : String :=
  String.mk (stripOuterQuotesChars (trimChars body.data))

/-- The gateway's txHash extraction for POST /api/process-deposit and
/api/process-withdrawal: try `JSON.parse(cleanBody)` (the oracle `jsonParse`
returns `none` when parsing throws, otherwise the `txHash` field); on parse
failure, if the clean body contains `txHash:` and `0x`, remove all braces,
split on colons and take the second part trimmed; finally treat an absent or
empty result as falsy (`if (!txHash)` rejects). -/
def extractTxHash (jsonParse : String → Option (Option String)) (body : String) :
    Option String :=
  let cleanBody := cleanedBody body
  let txHash : Option (List Char) :=
    match jsonParse cleanBody with
    | some field => field.map String.data
    | none =>
      if containsSub "txHash:".data cleanBody.data
          && containsSub "0x".data cleanBody.data then
        let withoutBraces := cleanBody.data.filter
          (fun c => !(c == Char.ofNat 123 || c == Char.ofNat 125))
        let parts := splitOnChar ':' withoutBraces
        if parts.length ≥ 2 then some (trimChars (parts.getD 1 []))
        else none
      else none
  match txHash with
  | some h => if h = [] then none else some (String.mk h)
  | none => none

/-- What the gateway does with a POST body: reject with HTTP 400
(`Transaction hash required`) without touching any state, or invoke the
processing pipeline on the extracted hash. -/
inductive GatewayOutcome where
  | rejected400
  | invokePipeline (txHash : String)
deriving DecidableEq, Repr

/-- The gateway's routing decision for a processing POST: 400 when no
txHash could be extracted, otherwise invoke the pipeline. -/
def gatewayRoute (jsonParse : String → Option (Option String)) (body : String) :
    GatewayOutcome :=
  match extractTxHash jsonParse body with
  | none => .rejected400
  | some h => .invokePipeline h

/-- Parse oracle for bodies that are not valid JSON (`JSON.parse` throws):
in particular `\x7btxHash: 0xabc\x7d` has an unquoted key and value, which
`JSON.parse` rejects. -/
def failingJsonParse : String → Option (Option String) := fun _ => none

/-- C7 counterexample: the body `\x7btxHash: 0xabc\x7d` is NOT parseable as
JSON (the oracle models `JSON.parse` throwing on it), yet the gateway does
not reject it — the manual brace-stripping fallback extracts `0xabc` and the
processing pipeline IS invoked. -/
theorem malformed_body_processed_counterexample :
    failingJsonParse (cleanedBody "\x7btxHash: 0xabc\x7d") = none
    ∧ gatewayRoute failingJsonParse "\x7btxHash: 0xabc\x7d" = .invokePipeline "0xabc" := by
  decide

/-- C7 (amended): a malformed body is rejected with a 400-class response and
no pipeline invocation only when the manual fallback cannot fire — when the
cleaned body fails JSON parse AND lacks `txHash:` or lacks `0x` — and a
well-formed body lacking a (non-empty) txHash field is always rejected;
a JSON-unparseable body containing both `txHash:` and `0x` is instead fed to
the pipeline via manual extraction (see the counterexample). -/
theorem invalid_body_rejected :
    (∀ parse body, parse (cleanedBody body) = none →
        (containsSub "txHash:".data (cleanedBody body).data = false ∨
         containsSub "0x".data (cleanedBody body).data = false) →
        gatewayRoute parse body = .rejected400)
    ∧ (∀ parse body, parse (cleanedBody body) = some none →
        gatewayRoute parse body = .rejected400)
    ∧ (∀ parse body, parse (cleanedBody body) = some (some "") →
        gatewayRoute parse body = .rejected400) := by
  refine ⟨?_, ?_, ?_⟩
  · intro parse body hparse hfb
    unfold gatewayRoute extractTxHash
    dsimp only
    rw [hparse]
    rcases hfb with h | h <;> rw [h] <;> simp
  · intro parse body hparse
    unfold gatewayRoute extractTxHash
    dsimp only
    rw [hparse]
    rfl
  · intro parse body hparse
    unfold gatewayRoute extractTxHash
    dsimp only
    rw [hparse]
    rfl

/-- Parse oracle for a valid-JSON body whose txHash field is the empty
string. -/
def emptyHashJsonParse : String → Option (Option String) := fun _ => some (some "")

/-- Parse oracle for a valid-JSON body with no txHash field. -/
def noFieldJsonParse : String → Option (Option String) := fun _ => some none

/-- Witness for C7 (amended) on three concrete bodies. -/
theorem invalid_body_rejected_witness :
    gatewayRoute failingJsonParse "hello" = .rejected400
    ∧ gatewayRoute noFieldJsonParse "\x7b\x7d" = .rejected400
    ∧ gatewayRoute emptyHashJsonParse "\x7b\"txHash\":\"\"\x7d" = .rejected400 :=
  ⟨invalid_body_rejected.1 failingJsonParse "hello" rfl (by decide),
   invalid_body_rejected.2.1 noFieldJsonParse "\x7b\x7d" rfl,
   invalid_body_rejected.2.2 emptyHashJsonParse "\x7b\"txHash\":\"\"\x7d" rfl⟩

/-- The chain view a single `monitorBscDeposits` loop iteration observes:
the current chain head, the Deposit events each single-block `queryFilter`
returns, and whether the RPC calls of this iteration throw. -/
structure WatcherEnv where
  head : Nat
  eventsAt : Nat → List Nat
  queryFails : Bool

/-- Externally visible actions of one watcher iteration, in order: the
event query over a block range, handing an event to `handleBscDeposit`,
persisting the cursor via `setLastBscBlock`, and the poll-interval sleep. -/
inductive WatcherAction where
  | query (fromBlock toBlock : Nat)
  | dispatch (event : Nat)
  | persistLastBlock (block : Nat)
  | sleepPoll (ms : Nat)
deriving DecidableEq, Repr

/-- One iteration of the `monitorBscDeposits` polling loop (`relayer.js`):
if the head is past the cursor, scan exactly `toBlock = lastBlock + 1`,
query Deposit events for that single block, dispatch each, then set and
persist the cursor; throwing RPC calls leave the cursor untouched; when
caught up (or nearly), sleep the 5-second poll interval. -/
def monitorBscDepositsStep (env : WatcherEnv) (lastBlock : Nat) (st : RelayerState) :
    Nat × RelayerState × List WatcherAction :=
  if env.head > lastBlock then
    let blocksBehind := env.head - lastBlock
    let toBlock := lastBlock + 1
    if env.queryFails then
      (lastBlock, st, [WatcherAction.query toBlock toBlock])
    else
      (toBlock, setLastBscBlock st toBlock,
        [WatcherAction.query toBlock toBlock]
          ++ (env.eventsAt toBlock).map WatcherAction.dispatch
          ++ [WatcherAction.persistLastBlock toBlock]
          ++ (if blocksBehind ≤ 1 then [WatcherAction.sleepPoll 5000] else []))
  else
    (lastBlock, st, [WatcherAction.sleepPoll 5000])

/-- Whether a watcher action is an event dispatch. -/
def isDispatch : WatcherAction → Bool
  | .dispatch _ => true
  | _ => false

/-- `true` iff no event dispatch occurs after any cursor-persist action in
the trace — i.e. the cursor is persisted only once the block's events have
all been dispatched. -/
def noDispatchAfterPersist : List WatcherAction → Bool
  | [] => true
  | WatcherAction.persistLastBlock _ :: rest =>
      rest.all (fun a => !(isDispatch a)) && noDispatchAfterPersist rest
  | _ :: rest => noDispatchAfterPersist rest

/-- A block of leading dispatch actions never affects the
persist-after-dispatch check. -/
theorem noDispatchAfterPersist_dispatches (evs : List Nat) (rest : List WatcherAction) :
    noDispatchAfterPersist (evs.map WatcherAction.dispatch ++ rest) =
      noDispatchAfterPersist rest := by
  induction evs with
  | nil => rfl
  | cons e evs ih => simpa [noDispatchAfterPersist] using ih

/-- C8: when the head is ahead of the cursor (and the RPC calls succeed) the
watcher advances the cursor by exactly one block, queries exactly that
single block (the trace's only query is `query (last+1) (last+1)`),
dispatches every event of that block, persists the new cursor only after
all dispatches, and the cursor is monotonically non-decreasing over every
iteration (including RPC-failure and caught-up iterations). -/
theorem watcher_single_block_monotone :
    (∀ env last st, env.head > last → env.queryFails = false →
        (monitorBscDepositsStep env last st).1 = last + 1
        ∧ (monitorBscDepositsStep env last st).2.1.lastBscBlock = some (last + 1)
        ∧ ((monitorBscDepositsStep env last st).2.2.filter
            (fun a => match a with | WatcherAction.query _ _ => true | _ => false))
            = [WatcherAction.query (last + 1) (last + 1)]
        ∧ (∀ e ∈ env.eventsAt (last + 1),
            WatcherAction.dispatch e ∈ (monitorBscDepositsStep env last st).2.2)
        ∧ noDispatchAfterPersist (monitorBscDepositsStep env last st).2.2 = true
        ∧ WatcherAction.persistLastBlock (last + 1) ∈ (monitorBscDepositsStep env last st).2.2)
    ∧ (∀ env last st, last ≤ (monitorBscDepositsStep env last st).1) := by
  constructor
  · intro env last st hh hq
    unfold monitorBscDepositsStep
    rw [if_pos hh]
    dsimp only
    rw [if_neg (by rw [hq]; simp)]
    refine ⟨rfl, rfl, ?_, ?_, ?_, ?_⟩
    · split <;> simp [List.filter_append, List.filter_map, Function.comp_def]
    · intro e he
      exact List.mem_append_left _ (List.mem_append_left _
        (List.mem_append_right _ (List.mem_map_of_mem _ he)))
    · rw [show [WatcherAction.query (last + 1) (last + 1)]
            ++ (env.eventsAt (last + 1)).map WatcherAction.dispatch
            ++ [WatcherAction.persistLastBlock (last + 1)]
            ++ (if env.head - last ≤ 1 then [WatcherAction.sleepPoll 5000] else []) =
          WatcherAction.query (last + 1) (last + 1) ::
            ((env.eventsAt (last + 1)).map WatcherAction.dispatch
              ++ (WatcherAction.persistLastBlock (last + 1) ::
                (if env.head - last ≤ 1 then [WatcherAction.sleepPoll 5000] else []))) from by
        simp]
      show noDispatchAfterPersist _ = true
      rw [show noDispatchAfterPersist (WatcherAction.query (last + 1) (last + 1) ::
            ((env.eventsAt (last + 1)).map WatcherAction.dispatch
              ++ (WatcherAction.persistLastBlock (last + 1) ::
                (if env.head - last ≤ 1 then [WatcherAction.sleepPoll 5000] else [])))) =
          noDispatchAfterPersist ((env.eventsAt (last + 1)).map WatcherAction.dispatch
              ++ (WatcherAction.persistLastBlock (last + 1) ::
                (if env.head - last ≤ 1 then [WatcherAction.sleepPoll 5000] else []))) from rfl]
      rw [noDispatchAfterPersist_dispatches]
      split <;> simp [noDispatchAfterPersist, isDispatch]
    · simp
  · intro env last st
    unfold monitorBscDepositsStep
    by_cases hh : env.head > last
    · rw [if_pos hh]
      dsimp only
      by_cases hq : env.queryFails
      · rw [if_pos hq]
      · rw [if_neg hq]
        exact Nat.le_succ last
    · rw [if_neg hh]

/-- A concrete watcher environment: head five blocks ahead, one event per
block. -/
def sampleWatcherEnv : WatcherEnv :=
  { head := 105, eventsAt := fun b => [b * 10], queryFails := false }

/-- Witness for C8 at the concrete environment (cursor 100, head 105). -/
theorem watcher_single_block_monotone_witness :
    (monitorBscDepositsStep sampleWatcherEnv 100 (freshState "t0")).1 = 101
    ∧ (monitorBscDepositsStep sampleWatcherEnv 100 (freshState "t0")).2.1.lastBscBlock = some 101
    ∧ ((monitorBscDepositsStep sampleWatcherEnv 100 (freshState "t0")).2.2.filter
        (fun a => match a with | WatcherAction.query _ _ => true | _ => false))
        = [WatcherAction.query 101 101]
    ∧ WatcherAction.dispatch 1010 ∈ (monitorBscDepositsStep sampleWatcherEnv 100 (freshState "t0")).2.2
    ∧ noDispatchAfterPersist (monitorBscDepositsStep sampleWatcherEnv 100 (freshState "t0")).2.2 = true
    ∧ WatcherAction.persistLastBlock 101 ∈ (monitorBscDepositsStep sampleWatcherEnv 100 (freshState "t0")).2.2
    ∧ 100 ≤ (monitorBscDepositsStep sampleWatcherEnv 100 (freshState "t0")).1 :=
  ⟨(watcher_single_block_monotone.1 sampleWatcherEnv 100 (freshState "t0") (by decide) rfl).1,
   (watcher_single_block_monotone.1 sampleWatcherEnv 100 (freshState "t0") (by decide) rfl).2.1,
   (watcher_single_block_monotone.1 sampleWatcherEnv 100 (freshState "t0") (by decide) rfl).2.2.1,
   (watcher_single_block_monotone.1 sampleWatcherEnv 100 (freshState "t0") (by decide) rfl).2.2.2.1
     1010 (by decide),
   (watcher_single_block_monotone.1 sampleWatcherEnv 100 (freshState "t0") (by decide) rfl).2.2.2.2.1,
   (watcher_single_block_monotone.1 sampleWatcherEnv 100 (freshState "t0") (by decide) rfl).2.2.2.2.2,
   watcher_single_block_monotone.2 sampleWatcherEnv 100 (freshState "t0")⟩

/-- The relayer's BSC endpoint rotation state: the ordered endpoint list and
`currentBscRpcIndex`. -/
structure RpcPool where
  endpoints : List String
  currentIndex : Nat
deriving DecidableEq, Repr

/-- The six hard-coded BSC RPC endpoints of `relayer.js`. -/
def bscRpcEndpoints : List String :=
  ["https://bsc-dataseed1.binance.org",
   "https://bsc-dataseed2.binance.org",
   "https://bsc-dataseed3.binance.org",
   "https://bsc-dataseed4.binance.org",
   "https://bsc.publicnode.com",
   "https://bsc-rpc.publicnode.com"]

/-- `getNextBscRpc`: advance the round-robin index by one modulo the number
of endpoints and return the newly active endpoint. -/
def getNextBscRpc (p : RpcPool) : RpcPool × String :=
  let newIndex := (p.currentIndex + 1) % p.endpoints.length
  ({ p with currentIndex := newIndex }, p.endpoints.getD newIndex "")

/-- The error classes distinguished by the `monitorBscDeposits` catch
branch, by substring of the error message: rate limit / 429 / missing
response (rotate + exponential backoff), timeout / network (plain 10 s
retry), anything else (15 s retry). -/
inductive RpcErrorKind where
  | rateLimit
  | code429
  | missingResponse
  | timeout
  | network
  | other
deriving DecidableEq, Repr

/-- The `monitorBscDeposits` error handler's decision: whether the endpoint
pool rotates, and the wait in milliseconds before the next attempt, given
the consecutive-error count (`Math.min(5000 * 2 ** (n-1), 60000)` for the
rate-limit class). -/
def monitorErrorResponse (kind : RpcErrorKind) (consecutiveErrors : Nat) : Bool × Nat :=
  match kind with
  | .rateLimit | .code429 | .missingResponse =>
      (true, min (5000 * 2 ^ (consecutiveErrors - 1)) 60000)
  | .timeout | .network => (false, 10000)
  | .other => (false, 15000)

/-- C9: on the rate-limit error class the pool rotates — the round-robin
index advances by one modulo the endpoint count (leaving the endpoint list
unchanged, returning the newly active endpoint, wrapping 5 to 0 on the
concrete six-endpoint list) — and the backoff before the next attempt after
n consecutive failures equals `min(5000 * 2^(n-1), 60000)` ms: it starts at
5000, doubles per consecutive failure (recurrence conjunct) and is capped
at 60000; non-rate-limit classes do not rotate. -/
theorem rate_limit_rotation_backoff :
    (∀ p : RpcPool, (getNextBscRpc p).1.currentIndex = (p.currentIndex + 1) % p.endpoints.length
        ∧ (getNextBscRpc p).1.endpoints = p.endpoints
        ∧ (getNextBscRpc p).2 = p.endpoints.getD ((p.currentIndex + 1) % p.endpoints.length) "")
    ∧ (∀ n, 1 ≤ n → (monitorErrorResponse .rateLimit n).1 = true
        ∧ (monitorErrorResponse .rateLimit n).2 = min (5000 * 2 ^ (n - 1)) 60000)
    ∧ (monitorErrorResponse .rateLimit 1).2 = 5000
    ∧ (∀ n, 1 ≤ n → (monitorErrorResponse .rateLimit (n + 1)).2 =
        min (2 * (monitorErrorResponse .rateLimit n).2) 60000)
    ∧ (∀ n, (monitorErrorResponse .rateLimit n).2 ≤ 60000)
    ∧ (getNextBscRpc { endpoints := bscRpcEndpoints, currentIndex := 5 }).1.currentIndex = 0
    ∧ (monitorErrorResponse .timeout 3).1 = false
    ∧ (monitorErrorResponse .other 3).1 = false := by
  refine ⟨fun p => ⟨rfl, rfl, rfl⟩, fun n _ => ⟨rfl, rfl⟩, by norm_num [monitorErrorResponse],
    ?_, fun n => Nat.min_le_right _ _, by decide, rfl, rfl⟩
  intro n hn
  simp only [monitorErrorResponse]
  have h2 : 5000 * 2 ^ (n + 1 - 1) = 2 * (5000 * 2 ^ (n - 1)) := by
    rcases n with _ | m
    · exact absurd hn (by simp)
    · simp only [Nat.add_sub_cancel]
      rw [pow_succ]
      ring
  rw [h2]
  generalize (5000 * 2 ^ (n - 1)) = a
  omega

/-- Witness for C9 at the concrete pool and n = 3 (rotation, 20 s backoff,
doubling step to n = 4). -/
theorem rate_limit_rotation_backoff_witness :
    ((getNextBscRpc { endpoints := bscRpcEndpoints, currentIndex := 0 }).1.currentIndex =
        (0 + 1) % bscRpcEndpoints.length)
    ∧ (monitorErrorResponse .rateLimit 3).1 = true
    ∧ (monitorErrorResponse .rateLimit 3).2 = min (5000 * 2 ^ (3 - 1)) 60000
    ∧ (monitorErrorResponse .rateLimit 4).2 = min (2 * (monitorErrorResponse .rateLimit 3).2) 60000 :=
  ⟨(rate_limit_rotation_backoff.1 { endpoints := bscRpcEndpoints, currentIndex := 0 }).1,
   (rate_limit_rotation_backoff.2.1 3 (by decide)).1,
   (rate_limit_rotation_backoff.2.1 3 (by decide)).2,
   rate_limit_rotation_backoff.2.2.2.1 3 (by decide)⟩

/-- Deserialisation oracle for a state file whose contents are not valid
JSON. -/
def failingStateParse : String → Option RelayerState := fun _ => none

/-- C10: if the persisted state file exists but parsing its contents throws
(or reading throws), `loadState` returns exactly the fresh empty state it
returns when no file exists: null block cursors, empty processed lists and
an empty transaction-hash map — the processed-event history is silently
discarded rather than failing startup. -/
theorem loadState_parse_failure :
    (∀ parse now s, parse s = none →
        loadState parse now (.content s) = loadState parse now .absent)
    ∧ (∀ parse now s, parse s = none → loadState parse now (.content s) = freshState now)
    ∧ (∀ parse now, loadState parse now .readFails = freshState now)
    ∧ (∀ now, (freshState now).lastBscBlock = none ∧ (freshState now).lastUcBlock = none
        ∧ (freshState now).processedDeposits = [] ∧ (freshState now).processedBurns = []
        ∧ (∀ k, (freshState now).transactionHashes k = none)) := by
  refine ⟨?_, ?_, fun parse now => rfl, fun now => ⟨rfl, rfl, rfl, rfl, fun k => rfl⟩⟩
  · intro parse now s h
    unfold loadState
    dsimp only
    rw [h]
  · intro parse now s h
    unfold loadState
    dsimp only
    rw [h]

/-- Witness for C10 on a concrete unparseable file content. -/
theorem loadState_parse_failure_witness :
    loadState failingStateParse "t1" (.content "not json") =
      loadState failingStateParse "t1" .absent
    ∧ loadState failingStateParse "t1" (.content "not json") = freshState "t1"
    ∧ loadState failingStateParse "t1" .readFails = freshState "t1"
    ∧ ((freshState "t1").lastBscBlock = none ∧ (freshState "t1").lastUcBlock = none
        ∧ (freshState "t1").processedDeposits = [] ∧ (freshState "t1").processedBurns = []
        ∧ (∀ k, (freshState "t1").transactionHashes k = none)) :=
  ⟨loadState_parse_failure.1 failingStateParse "t1" "not json" rfl,
   loadState_parse_failure.2.1 failingStateParse "t1" "not json" rfl,
   loadState_parse_failure.2.2.1 failingStateParse "t1",
   loadState_parse_failure.2.2.2 "t1"⟩
